import Mathlib

/-!
Shallow embedding of pdns-data-manager.py, a utility that reconciles a
declarative description of PowerDNS zones and records against the PowerDNS
administrative HTTP API.

The HTTP world is modelled as an environment function from a request to an
optional status code: answering some s means the library call returned a
response with status code s, while answering none means the library call
raised an exception (network failure, timeout).  The requests library call
raise_for_status raises exactly when 400 <= status < 600; this is modelled
explicitly wherever the source calls it.

Every operation of the source is embedded as a pure function that returns
its Python return value together with the ordered list of HTTP requests it
issued and the ordered list of log events it emitted.  An Option-valued
result component models an exception escaping the function (only
create_zone can let a requests exception escape: its POST call is not
inside a try block).  Headers are threaded through the Python functions but
never inspected; they are omitted from the embedding.  The text of caught
exception objects, logged by the source as the f-string Error: {error}, is
abstracted to the fixed string Error.
-/

namespace PdnsDataManager

/-- HTTP method of an issued request. -/
inductive Method
  | get
  | post
  | patch
  | delete
deriving DecidableEq, Repr

/-- One entry of the records array inside an rrset payload:
built in create_records as a dict with keys content and disabled. -/
structure RecEntry where
  content : String
  disabled : Bool
deriving DecidableEq, Repr

/-- JSON body of an issued request, one constructor per payload shape the
source builds (zone creation, rrset REPLACE, rrset DELETE, zone delete). -/
inductive Body
  | zoneCreate (name kind : String) (masters nameservers : List String)
  | rrsetReplace (name rtype : String) (ttl : Nat) (records : List RecEntry)
  | rrsetDelete (name rtype : String)
  | zoneDelete (name : String)
deriving DecidableEq, Repr

/-- An HTTP request as issued by the source: method, URL, optional body. -/
structure Request where
  method : Method
  url : String
  body : Option Body
deriving DecidableEq, Repr

/-- The HTTP environment: what the server (and network) answers to each
request.  some s is a response with status code s; none is a raised
exception (connection failure, timeout). -/
abbrev Env := Request → Option Nat

/-- A log event emitted through the logger, tagged with its level. -/
inductive LogEvent
  | debugMsg (s : String)
  | infoMsg (s : String)
  | errorMsg (s : String)
deriving DecidableEq, Repr

/-- A record specification as read from the config document
(records: [{name, type, ttl, disabled, content}]). -/
structure RecordSpec where
  name : String
  type : String
  ttl : Nat
  disabled : Bool
  content : List String
deriving DecidableEq, Repr

/-- A zone specification as read from the config document. -/
structure Zone where
  name : String
  kind : String
  nameservers : List String
  masters : List String
  records : List RecordSpec
deriving DecidableEq, Repr

/-- The parsed config document.  zones = none models both an absent zones
key and a zones key holding null: cfg.get('zones', []) followed by the
None check maps both to the empty list. -/
structure Config where
  zones : Option (List Zone)
deriving DecidableEq, Repr

/-- read_zones: the list of zones read from the config document, the empty
list when the zones section is empty or absent. -/
def read_zones (cfg : Config) : List Zone :=
  cfg.zones.getD []

/-- The base zones URL built in create and delete:
protocol://host:port/api/v1/servers/localhost/zones. -/
def base_zones_url (proto host port : String) : String :=
  proto ++ "://" ++ host ++ ":" ++ port ++ "/api/v1/servers/localhost/zones"

/-- The per-zone URL built in delete: the base zones URL with the zone name
appended after a slash. -/
def zone_url (proto host port zname : String) : String :=
  base_zones_url proto host port ++ "/" ++ zname

/-- The GET request the probe issues for a URL. -/
def probe_request (url : String) : Request :=
  { method := Method.get, url := url, body := none }

/-- zone_exists: sends a single GET to the given URL and calls
raise_for_status inside a try block that swallows every exception.
Returns true when the GET returned a response whose status code is outside
the raise_for_status error range [400, 600); false when the status is in
that range or when the call raised. -/
def zone_exists (env : Env) (url : String) : Bool × List Request × List LogEvent :=
  let req := probe_request url
  let logs := [LogEvent.debugMsg ("Sending GET request to " ++ url)]
  match env req with
  | none => (false, [req], logs)
  | some s => (if 400 ≤ s ∧ s < 600 then false else true, [req], logs)

/-- The zone-creation payload built at the top of create_zone: for kinds
MASTER and NATIVE the masters field is sent empty and the nameservers field
carries the zone's nameservers; for every other kind the nameservers field
is sent empty and the masters field carries the zone's masters. -/
def create_zone_payload (zone : Zone) : Body :=
  if zone.kind = "MASTER" ∨ zone.kind = "NATIVE" then
    Body.zoneCreate zone.name zone.kind [] zone.nameservers
  else
    Body.zoneCreate zone.name zone.kind zone.masters []

/-- The POST request create_zone issues for a zone at the base URL. -/
def create_request (url : String) (zone : Zone) : Request :=
  { method := Method.post, url := url, body := some (create_zone_payload zone) }

/-- create_zone: builds the payload, probes url/name with zone_exists, and
if the zone is absent POSTs the payload to the base URL; a 201 response is
success (some true), any other status is failure (some false).  The POST is
not inside a try block, so a raised exception escapes: result none. -/
def create_zone (env : Env) (url : String) (zone : Zone) :
    Option Bool × List Request × List LogEvent :=
  let probe := zone_exists env (url ++ "/" ++ zone.name)
  if probe.1 then
    (some true, probe.2.1, probe.2.2)
  else
    let req := create_request url zone
    let logs1 := probe.2.2 ++ [LogEvent.infoMsg ("Request to create Zone " ++ zone.name)]
    match env req with
    | none => (none, probe.2.1 ++ [req], logs1)
    | some s =>
      if s = 201 then
        (some true, probe.2.1 ++ [req],
          logs1 ++ [LogEvent.infoMsg ("Successfully created zone " ++ zone.name)])
      else
        (some false, probe.2.1 ++ [req],
          logs1 ++ [LogEvent.infoMsg ("Failed to create zone " ++ zone.name)])

/-- The inner loop of create_records that accumulates the records array of
the rrset payload: one entry per content value, in input order, each
paired with the record's disabled flag. -/
def build_records : List String → Bool → List RecEntry
  | [], _ => []
  | c :: cs, d => { content := c, disabled := d } :: build_records cs d

/-- The rrset REPLACE payload built in create_records for one record. -/
def record_payload (record : RecordSpec) : Body :=
  Body.rrsetReplace record.name record.type record.ttl
    (build_records record.content record.disabled)

/-- The PATCH request create_records issues for one record of a zone. -/
def upsert_request (url zname : String) (record : RecordSpec) : Request :=
  { method := Method.patch, url := url ++ "/" ++ zname,
    body := some (record_payload record) }

/-- The loop body of create_records over the zone's record list: for each
record, one PATCH of the rrset REPLACE payload to url/zname, inside a try
block; a raised exception or an error status from raise_for_status is
logged and the loop continues. -/
def create_records_loop (env : Env) (url zname : String) :
    List RecordSpec → List Request × List LogEvent
  | [] => ([], [])
  | record :: rest =>
    let req := upsert_request url zname record
    let outcomeLog : LogEvent :=
      match env req with
      | none => LogEvent.errorMsg "Error"
      | some s =>
        if 400 ≤ s ∧ s < 600 then LogEvent.errorMsg "Error"
        else LogEvent.infoMsg ("Successfully created/updated record " ++ record.name)
    let next := create_records_loop env url zname rest
    (req :: next.1,
      LogEvent.infoMsg ("Sending request to create record " ++ record.name)
        :: outcomeLog :: next.2)

/-- create_records: reconciles every record of the zone, never raising. -/
def create_records (env : Env) (url : String) (zone : Zone) :
    List Request × List LogEvent :=
  create_records_loop env url zone.name zone.records

/-- Outcome of the create function: ok when it returned normally,
failed c when it raised its own Exception because err_count = c > 0, and
crashed when an uncaught requests exception escaped from create_zone. -/
inductive CreateResult
  | ok
  | failed (errCount : Nat)
  | crashed
deriving DecidableEq, Repr

/-- The loop of create over the zone list, threading err_count: a zone whose
create_zone returns true gets its records reconciled; a zone whose
create_zone returns false is logged as skipped and err_count is
incremented; an escaping exception aborts the loop. -/
def create_loop (env : Env) (proto host port : String) :
    List Zone → Nat → CreateResult × List Request × List LogEvent
  | [], errCount =>
    ((if errCount > 0 then CreateResult.failed errCount else CreateResult.ok), [], [])
  | zone :: rest, errCount =>
    let url := base_zones_url proto host port
    let cz := create_zone env url zone
    match cz.1 with
    | none => (CreateResult.crashed, cz.2.1, cz.2.2)
    | some true =>
      let recs := create_records env url zone
      let next := create_loop env proto host port rest errCount
      (next.1, cz.2.1 ++ recs.1 ++ next.2.1, cz.2.2 ++ recs.2 ++ next.2.2)
    | some false =>
      let next := create_loop env proto host port rest (errCount + 1)
      (next.1, cz.2.1 ++ next.2.1,
        cz.2.2 ++
          (LogEvent.errorMsg ("Zone " ++ zone.name ++
              " Creation failed. Skipping record creation") :: next.2.2))

/-- create: runs the zone loop with err_count starting at 0. -/
def create (env : Env) (proto host port : String) (data : Config) :
    CreateResult × List Request × List LogEvent :=
  create_loop env proto host port (read_zones data) 0

/-- The rrset DELETE payload built in delete_records for one record. -/
def delete_record_payload (record : RecordSpec) : Body :=
  Body.rrsetDelete record.name record.type

/-- The loop body of delete_records: for each record, log the request, probe
zone existence at the zone URL, and if present PATCH the rrset DELETE
payload inside a try block (errors logged, loop continues); if absent log
that the zone does not exist and move on. -/
def delete_records_loop (env : Env) (url zname : String) :
    List RecordSpec → List Request × List LogEvent
  | [] => ([], [])
  | record :: rest =>
    let logs1 := [LogEvent.infoMsg ("Request to delete record  " ++ record.name)]
    let probe := zone_exists env url
    let step : List Request × List LogEvent :=
      if probe.1 then
        let req : Request :=
          { method := Method.patch, url := url,
            body := some (delete_record_payload record) }
        match env req with
        | none => ([req], [LogEvent.errorMsg "Error"])
        | some s =>
          if 400 ≤ s ∧ s < 600 then ([req], [LogEvent.errorMsg "Error"])
          else
            ([req], [LogEvent.infoMsg ("Successful deleted DNS record " ++ record.name)])
      else
        ([], [LogEvent.infoMsg ("Zone " ++ zname ++ " for the record " ++ record.name ++
            " requested to be deleted does not exists")])
    let next := delete_records_loop env url zname rest
    (probe.2.1 ++ step.1 ++ next.1, logs1 ++ probe.2.2 ++ step.2 ++ next.2)

/-- delete_records: best-effort deletion of every record of the zone. -/
def delete_records (env : Env) (url : String) (zone : Zone) :
    List Request × List LogEvent :=
  delete_records_loop env url zone.name zone.records

/-- delete_zone: log the request, probe zone existence, and if present issue
a DELETE of the zone inside a try block (errors logged); if absent log that
the zone does not exist. -/
def delete_zone (env : Env) (url : String) (zone : Zone) :
    List Request × List LogEvent :=
  let logs1 := [LogEvent.infoMsg ("Request to delete Zone " ++ zone.name)]
  let probe := zone_exists env url
  if probe.1 then
    let req : Request :=
      { method := Method.delete, url := url, body := some (Body.zoneDelete zone.name) }
    match env req with
    | none => (probe.2.1 ++ [req], logs1 ++ probe.2.2 ++ [LogEvent.errorMsg "Error"])
    | some s =>
      if 400 ≤ s ∧ s < 600 then
        (probe.2.1 ++ [req], logs1 ++ probe.2.2 ++ [LogEvent.errorMsg "Error"])
      else
        (probe.2.1 ++ [req],
          logs1 ++ probe.2.2 ++
            [LogEvent.infoMsg ("Successful deleted zone " ++ zone.name)])
  else
    (probe.2.1,
      logs1 ++ probe.2.2 ++
        [LogEvent.infoMsg ("Zone " ++ zone.name ++ " requested to be deleted does not exists")])

/-- The loop of delete over the zone list: per zone, delete its records then
the zone itself, both best-effort; nothing can raise. -/
def delete_loop (env : Env) (proto host port : String) :
    List Zone → List Request × List LogEvent
  | [] => ([], [])
  | zone :: rest =>
    let url := zone_url proto host port zone.name
    let recs := delete_records env url zone
    let dz := delete_zone env url zone
    let next := delete_loop env proto host port rest
    (recs.1 ++ dz.1 ++ next.1, recs.2 ++ dz.2 ++ next.2)

/-- delete: runs the deletion loop over the zones of the config. -/
def delete (env : Env) (proto host port : String) (data : Config) :
    List Request × List LogEvent :=
  delete_loop env proto host port (read_zones data)

/-- The loop of validate_data over the zone list: a MASTER zone with no
nameserver or a SLAVE zone with no master raises; the first offending zone
aborts the loop. -/
def validate_zones : List Zone → Except String Unit
  | [] => Except.ok ()
  | zone :: rest =>
    if zone.kind = "MASTER" ∧ zone.nameservers.length < 1 then
      Except.error "A nameserver is required to create a MASTER zone"
    else if zone.kind = "SLAVE" ∧ zone.masters.length < 1 then
      Except.error "A master is required to create SLAVE zone"
    else
      validate_zones rest

/-- validate_data: validates every zone read from the config document. -/
def validate_data (data : Config) : Except String Unit :=
  validate_zones (read_zones data)

/-- The operation selected on the command line. -/
inductive Operation
  | create
  | delete
deriving DecidableEq, Repr

/-- The reported outcome of the whole run: a validation error propagating
out of main, or the success/failure summary printed at the end of the
selected operation. -/
inductive RunResult
  | configError (msg : String)
  | opSuccess
  | opFailure
deriving DecidableEq, Repr

/-- The tail of main after config loading: validate_data (an exception here
propagates, no operation runs), then dispatch on the operation; the create
branch reports failure exactly when create raised (its own err_count
exception or an escaped requests exception), the delete branch reports
success whenever delete returns, and delete always returns. -/
def main_run (env : Env) (proto host port : String) (op : Operation) (data : Config) :
    RunResult × List Request × List LogEvent :=
  match validate_data data with
  | Except.error e => (RunResult.configError e, [], [])
  | Except.ok _ =>
    match op with
    | Operation.create =>
      let c := create env proto host port data
      match c.1 with
      | CreateResult.ok =>
        (RunResult.opSuccess, c.2.1,
          c.2.2 ++ [LogEvent.infoMsg "Create operation successful"])
      | _ =>
        (RunResult.opFailure, c.2.1,
          c.2.2 ++ [LogEvent.errorMsg "Create operation failed"])
    | Operation.delete =>
      let d := delete env proto host port data
      (RunResult.opSuccess, d.1, d.2 ++ [LogEvent.infoMsg "Delete operation successful"])

/-- Specification-side count of zone-level creation failures: the number of
zones whose create_zone call returns False.  Defined independently of the
err_count threading inside create_loop. -/
def countZoneFailures (env : Env) (url : String) (zones : List Zone) : Nat :=
  zones.countP (fun z => decide ((create_zone env url z).1 = some false))

/-- Specification-side classification of an environment answer as an error
for a call followed by raise_for_status: a raised exception or a status in
[400, 600). -/
def is_http_error : Option Nat → Bool
  | none => true
  | some s => decide (400 ≤ s ∧ s < 600)

/-- A concrete record specification used to evaluate the model. -/
def recA : RecordSpec :=
  { name := "a.example.", type := "A", ttl := 300, disabled := false,
    content := ["10.0.0.1", "10.0.0.2"] }

/-- A concrete NATIVE zone with one record and empty nameservers/masters. -/
def zoneA : Zone :=
  { name := "a.example.", kind := "NATIVE", nameservers := [], masters := [],
    records := [recA] }

/-- A concrete MASTER zone with one nameserver and one record. -/
def zoneB : Zone :=
  { name := "b.example.", kind := "MASTER", nameservers := ["ns1.example."],
    masters := [], records := [recA] }

/-- A MASTER zone with no nameserver: rejected by validation. -/
def zoneBad : Zone :=
  { name := "bad.example.", kind := "MASTER", nameservers := [], masters := [],
    records := [] }

/-- Config holding only zoneA. -/
def cfgA : Config := { zones := some [zoneA] }

/-- Config holding zoneA then zoneB. -/
def cfgAB : Config := { zones := some [zoneA, zoneB] }

/-- Config holding the invalid zone. -/
def cfgBad : Config := { zones := some [zoneBad] }

/-- Environment where every zone probe misses and every zone creation is
refused with a 500. -/
def envZoneFail : Env := fun r =>
  match r.method with
  | Method.get => some 404
  | Method.post => some 500
  | _ => some 200

/-- Environment where probes miss, creation of the zone named a.example. is
refused with a 500, creation of any other zone succeeds with 201, and every
other call succeeds with 200. -/
def envSelective : Env := fun r =>
  match r.method, r.body with
  | Method.get, _ => some 404
  | Method.post, some (Body.zoneCreate n _ _ _) =>
    if n = "a.example." then some 500 else some 201
  | _, _ => some 200

/-- Environment where probes miss and every operation succeeds. -/
def envAllOk : Env := fun r =>
  match r.method with
  | Method.get => some 404
  | Method.post => some 201
  | _ => some 200

/-- Environment where every call answers 200: every probe hits. -/
def envExists : Env := fun _ => some 200

/-- Environment where probes miss, zone creation succeeds with 201, and
every record upsert is refused with a 500. -/
def envRecordFail : Env := fun r =>
  match r.method with
  | Method.get => some 404
  | Method.post => some 201
  | Method.patch => some 500
  | _ => some 200

/-- Environment answering every request with a 301 redirect status. -/
def env301 : Env := fun _ => some 301

/-- Environment where every probe hits and every modifying call is refused
with a 500: every record deletion and zone deletion fails. -/
def envDeleteFail : Env := fun r =>
  match r.method with
  | Method.get => some 200
  | _ => some 500

/-- Specification-side statement of the validation rules: a zone violates
them when it is a MASTER with no nameserver or a SLAVE with no master. -/
def zone_invalid (z : Zone) : Prop :=
  (z.kind = "MASTER" ∧ z.nameservers.length < 1) ∨
    (z.kind = "SLAVE" ∧ z.masters.length < 1)

instance (z : Zone) : Decidable (zone_invalid z) := by
  unfold zone_invalid
  infer_instance

theorem zone_exists_reqs (env : Env) (url : String) :
    (zone_exists env url).2.1 = [probe_request url] := by
  unfold zone_exists
  cases h : env (probe_request url) <;> simp [h]

theorem zone_exists_true_iff (env : Env) (url : String) :
    (zone_exists env url).1 = true ↔
      ∃ s, env (probe_request url) = some s ∧ ¬(400 ≤ s ∧ s < 600) := by
  unfold zone_exists
  cases h : env (probe_request url) with
  | none => simp [h]
  | some s =>
    by_cases hs : 400 ≤ s ∧ s < 600
    · simp [h, hs]
    · simp [h, hs]
      omega

theorem build_records_eq_map (d : Bool) (cs : List String) :
    build_records cs d = cs.map (fun c => { content := c, disabled := d }) := by
  induction cs with
  | nil => rfl
  | cons c cs ih => simp [build_records, ih]

theorem create_records_loop_reqs (env : Env) (url zname : String)
    (rs : List RecordSpec) :
    (create_records_loop env url zname rs).1 = rs.map (upsert_request url zname) := by
  induction rs with
  | nil => rfl
  | cons r rs ih => simp [create_records_loop, upsert_request, ih]

theorem create_records_reqs (env : Env) (url : String) (zone : Zone) :
    (create_records env url zone).1 = zone.records.map (upsert_request url zone.name) := by
  unfold create_records
  exact create_records_loop_reqs env url zone.name zone.records

theorem validate_zones_ok_iff (zs : List Zone) :
    validate_zones zs = Except.ok () ↔ ∀ z ∈ zs, ¬ zone_invalid z := by
  induction zs with
  | nil => simp [validate_zones]
  | cons z zs ih =>
    constructor
    · intro h w hw
      unfold validate_zones at h
      by_cases h1 : z.kind = "MASTER" ∧ z.nameservers.length < 1
      · rw [if_pos h1] at h
        exact Except.noConfusion h
      · rw [if_neg h1] at h
        by_cases h2 : z.kind = "SLAVE" ∧ z.masters.length < 1
        · rw [if_pos h2] at h
          exact Except.noConfusion h
        · rw [if_neg h2] at h
          rcases List.mem_cons.1 hw with hwz | hwzs
          · subst hwz
            intro hinv
            rcases hinv with hinv | hinv
            · exact h1 hinv
            · exact h2 hinv
          · exact (ih.1 h) w hwzs
    · intro hall
      unfold validate_zones
      have h1 : ¬(z.kind = "MASTER" ∧ z.nameservers.length < 1) := fun hc =>
        hall z (List.mem_cons_self z zs) (Or.inl hc)
      have h2 : ¬(z.kind = "SLAVE" ∧ z.masters.length < 1) := fun hc =>
        hall z (List.mem_cons_self z zs) (Or.inr hc)
      rw [if_neg h1, if_neg h2]
      exact ih.2 (fun w hw => hall w (List.mem_cons_of_mem z hw))

theorem validate_zones_error_iff (zs : List Zone) :
    (∃ e, validate_zones zs = Except.error e) ↔ ∃ z ∈ zs, zone_invalid z := by
  have hcases : validate_zones zs = Except.ok () ∨ ∃ e, validate_zones zs = Except.error e := by
    cases h : validate_zones zs with
    | ok u => cases u; exact Or.inl rfl
    | error e => exact Or.inr ⟨e, rfl⟩
  constructor
  · rintro ⟨e, he⟩
    by_contra hno
    push_neg at hno
    have hok : validate_zones zs = Except.ok () := (validate_zones_ok_iff zs).2 hno
    rw [hok] at he
    cases he
  · intro hz
    rcases hcases with hok | herr
    · rcases hz with ⟨z, hmem, hinv⟩
      exact absurd hinv ((validate_zones_ok_iff zs).1 hok z hmem)
    · exact herr

theorem create_zone_probe_hit (env : Env) (url : String) (zone : Zone)
    (h : (zone_exists env (url ++ "/" ++ zone.name)).1 = true) :
    create_zone env url zone =
      (some true, (zone_exists env (url ++ "/" ++ zone.name)).2.1,
        (zone_exists env (url ++ "/" ++ zone.name)).2.2) := by
  unfold create_zone
  simp [h]

theorem create_zone_probe_miss (env : Env) (url : String) (zone : Zone)
    (h : (zone_exists env (url ++ "/" ++ zone.name)).1 = false) :
    (create_zone env url zone).2.1 = [probe_request (url ++ "/" ++ zone.name),
        create_request url zone]
      ∧ ((create_zone env url zone).1 = some true ↔
          env (create_request url zone) = some 201) := by
  have hreq := zone_exists_reqs env (url ++ "/" ++ zone.name)
  unfold create_zone
  cases henv : env (create_request url zone) with
  | none => simp [h, henv, hreq]
  | some s =>
    by_cases hs : s = 201 <;> simp [h, henv, hs, hreq]

theorem create_loop_cons_crash (env : Env) (proto host port : String)
    (zone : Zone) (rest : List Zone) (n : Nat)
    (h : (create_zone env (base_zones_url proto host port) zone).1 = none) :
    create_loop env proto host port (zone :: rest) n =
      (CreateResult.crashed,
        (create_zone env (base_zones_url proto host port) zone).2.1,
        (create_zone env (base_zones_url proto host port) zone).2.2) := by
  simp [create_loop, h]

theorem create_loop_cons_ok (env : Env) (proto host port : String)
    (zone : Zone) (rest : List Zone) (n : Nat)
    (h : (create_zone env (base_zones_url proto host port) zone).1 = some true) :
    create_loop env proto host port (zone :: rest) n =
      ((create_loop env proto host port rest n).1,
        (create_zone env (base_zones_url proto host port) zone).2.1
          ++ (create_records env (base_zones_url proto host port) zone).1
          ++ (create_loop env proto host port rest n).2.1,
        (create_zone env (base_zones_url proto host port) zone).2.2
          ++ (create_records env (base_zones_url proto host port) zone).2
          ++ (create_loop env proto host port rest n).2.2) := by
  simp [create_loop, h]

theorem countZoneFailures_cons (env : Env) (url : String) (z : Zone) (zs : List Zone) :
    countZoneFailures env url (z :: zs) =
      countZoneFailures env url zs +
        (if (create_zone env url z).1 = some false then 1 else 0) := by
  simp [countZoneFailures, List.countP_cons]

theorem create_loop_result_eq (env : Env) (proto host port : String) :
    ∀ (zs : List Zone) (n : Nat),
      (create_loop env proto host port zs n).1 ≠ CreateResult.crashed →
      (create_loop env proto host port zs n).1 =
        (if 0 < n + countZoneFailures env (base_zones_url proto host port) zs then
          CreateResult.failed (n + countZoneFailures env (base_zones_url proto host port) zs)
        else CreateResult.ok) := by
  intro zs
  induction zs with
  | nil =>
    intro n hn
    simp [create_loop, countZoneFailures]
  | cons z zs ih =>
    intro n hn
    cases hcz : (create_zone env (base_zones_url proto host port) z).1 with
    | none =>
      exfalso
      apply hn
      simp [create_loop, hcz]
    | some b =>
      cases b with
      | true =>
        have h1 : (create_loop env proto host port (z :: zs) n).1
            = (create_loop env proto host port zs n).1 := by
          simp [create_loop, hcz]
        rw [h1] at hn ⊢
        rw [countZoneFailures_cons,
          if_neg (by simp [hcz] :
            ¬ (create_zone env (base_zones_url proto host port) z).1 = some false),
          Nat.add_zero]
        exact ih n hn
      | false =>
        have h1 : (create_loop env proto host port (z :: zs) n).1
            = (create_loop env proto host port zs (n + 1)).1 := by
          simp [create_loop, hcz]
        rw [h1] at hn ⊢
        rw [countZoneFailures_cons, if_pos hcz]
        have harith : n + (countZoneFailures env (base_zones_url proto host port) zs + 1)
            = (n + 1) + countZoneFailures env (base_zones_url proto host port) zs := by
          omega
        rw [harith]
        exact ih (n + 1) hn

theorem create_records_loop_err_log (env : Env) (url zname : String) :
    ∀ (rs : List RecordSpec) (r : RecordSpec), r ∈ rs →
      is_http_error (env (upsert_request url zname r)) = true →
      LogEvent.errorMsg "Error" ∈ (create_records_loop env url zname rs).2 := by
  intro rs
  induction rs with
  | nil =>
    intro r hr _
    exact absurd hr (List.not_mem_nil r)
  | cons a rs ih =>
    intro r hr herr
    rcases List.mem_cons.1 hr with hra | hrs
    · subst hra
      unfold create_records_loop
      cases henv : env (upsert_request url zname r) with
      | none => simp [henv]
      | some s =>
        have hs : 400 ≤ s ∧ s < 600 := by
          rw [henv] at herr
          simpa [is_http_error] using herr
        simp [henv, hs]
    · have hnext := ih r hrs herr
      unfold create_records_loop
      simp [List.mem_cons, hnext]

theorem create_loop_cons_fail (env : Env) (proto host port : String)
    (zone : Zone) (rest : List Zone) (n : Nat)
    (h : (create_zone env (base_zones_url proto host port) zone).1 = some false) :
    create_loop env proto host port (zone :: rest) n =
      ((create_loop env proto host port rest (n + 1)).1,
        (create_zone env (base_zones_url proto host port) zone).2.1
          ++ (create_loop env proto host port rest (n + 1)).2.1,
        (create_zone env (base_zones_url proto host port) zone).2.2
          ++ (LogEvent.errorMsg ("Zone " ++ zone.name ++
                " Creation failed. Skipping record creation")
              :: (create_loop env proto host port rest (n + 1)).2.2)) := by
  simp [create_loop, h]

theorem main_run_config_error (env : Env) (proto host port : String)
    (op : Operation) (data : Config) (e : String)
    (h : validate_data data = Except.error e) :
    main_run env proto host port op data = (RunResult.configError e, [], []) := by
  simp [main_run, h]

theorem main_run_create_result (env : Env) (proto host port : String) (data : Config)
    (hv : validate_data data = Except.ok ()) :
    (main_run env proto host port Operation.create data).1 =
      (if (create env proto host port data).1 = CreateResult.ok then RunResult.opSuccess
       else RunResult.opFailure) := by
  unfold main_run
  rw [hv]
  cases hc : (create env proto host port data).1 <;> simp [hc]

theorem main_run_delete_result (env : Env) (proto host port : String) (data : Config)
    (hv : validate_data data = Except.ok ()) :
    (main_run env proto host port Operation.delete data).1 = RunResult.opSuccess := by
  unfold main_run
  rw [hv]

/-- C1: in every run of the create path in which all zones are processed (no
requests exception escapes, so the loop is not aborted), the run reports
overall failure exactly when the number of zones whose creation failed is
positive.  The count on the right is defined independently of the err_count
threading, from the per-zone create_zone results alone, so record-level
upsert failures and individual successes cannot influence the reported
outcome. -/
theorem create_failure_report_iff_zone_failures
    (env : Env) (proto host port : String) (data : Config)
    (hv : validate_data data = Except.ok ())
    (hnc : (create env proto host port data).1 ≠ CreateResult.crashed) :
    (main_run env proto host port Operation.create data).1 = RunResult.opFailure ↔
      0 < countZoneFailures env (base_zones_url proto host port) (read_zones data) := by
  rw [main_run_create_result env proto host port data hv]
  unfold create at hnc ⊢
  rw [create_loop_result_eq env proto host port (read_zones data) 0 hnc]
  by_cases hpos : 0 < 0 + countZoneFailures env (base_zones_url proto host port) (read_zones data)
  · rw [if_pos hpos]
    simp only [Nat.zero_add] at hpos
    simp [hpos]
  · rw [if_neg hpos]
    simp only [Nat.zero_add] at hpos
    simp [hpos]

/-- Witness for C1 at a run where the only zone's creation is refused with a
500: the run reports failure and the zone failure count is 1. -/
theorem create_failure_report_iff_zone_failures_witness :
    (main_run envZoneFail "http" "pdns.local" "8081" Operation.create cfgA).1
        = RunResult.opFailure ↔
      0 < countZoneFailures envZoneFail (base_zones_url "http" "pdns.local" "8081")
          (read_zones cfgA) :=
  create_failure_report_iff_zone_failures envZoneFail "http" "pdns.local" "8081" cfgA
    rfl (by decide)

/-- C2: when zone A's creation fails (create_zone returns False) and zone B's
creation succeeds, the run processes A, logs the skip, then still processes B
with one upsert per record of B, and continues into the remaining zones; the
zone failure count records A and not B, and the two-zone run reports exactly
one failed zone. -/
theorem create_zone_failure_isolation
    (env : Env) (proto host port : String) (A B : Zone) (zs : List Zone)
    (hA : (create_zone env (base_zones_url proto host port) A).1 = some false)
    (hB : (create_zone env (base_zones_url proto host port) B).1 = some true) :
    (create_loop env proto host port (A :: B :: zs) 0).2.1
        = (create_zone env (base_zones_url proto host port) A).2.1
          ++ (create_zone env (base_zones_url proto host port) B).2.1
          ++ (create_records env (base_zones_url proto host port) B).1
          ++ (create_loop env proto host port zs 1).2.1
    ∧ (create_records env (base_zones_url proto host port) B).1
        = B.records.map (upsert_request (base_zones_url proto host port) B.name)
    ∧ LogEvent.errorMsg ("Zone " ++ A.name ++ " Creation failed. Skipping record creation")
        ∈ (create_loop env proto host port (A :: B :: zs) 0).2.2
    ∧ countZoneFailures env (base_zones_url proto host port) (A :: B :: zs)
        = 1 + countZoneFailures env (base_zones_url proto host port) zs
    ∧ (create env proto host port { zones := some [A, B] }).1 = CreateResult.failed 1 := by
  refine ⟨?_, create_records_reqs env (base_zones_url proto host port) B, ?_, ?_, ?_⟩
  · rw [create_loop_cons_fail env proto host port A (B :: zs) 0 hA,
      create_loop_cons_ok env proto host port B zs 1 hB]
    simp [List.append_assoc]
  · rw [create_loop_cons_fail env proto host port A (B :: zs) 0 hA]
    simp
  · rw [countZoneFailures_cons, countZoneFailures_cons, if_pos hA,
      if_neg (by simp [hB] :
        ¬ (create_zone env (base_zones_url proto host port) B).1 = some false)]
    omega
  · show (create_loop env proto host port (read_zones { zones := some [A, B] }) 0).1
      = CreateResult.failed 1
    have hz : read_zones { zones := some [A, B] } = [A, B] := rfl
    rw [hz, create_loop_cons_fail env proto host port A [B] 0 hA,
      create_loop_cons_ok env proto host port B [] 1 hB]
    simp [create_loop]

/-- Witness for C2: with the environment refusing only the creation of zone
a.example., the run over [zoneA, zoneB] reports exactly one failed zone. -/
theorem create_zone_failure_isolation_witness :
    (create envSelective "http" "pdns.local" "8081" { zones := some [zoneA, zoneB] }).1
      = CreateResult.failed 1 :=
  (create_zone_failure_isolation envSelective "http" "pdns.local" "8081" zoneA zoneB []
    (by decide) (by decide)).2.2.2.2

/-- C3: validation raises exactly when some zone is a MASTER with fewer than
one nameserver or a SLAVE with fewer than one master; an empty or absent
zones list validates as a no-op; and a run whose validation fails issues no
HTTP request at all. -/
theorem validation_rules_and_fail_fast
    (data : Config) (env : Env) (proto host port : String) (op : Operation) :
    ((∃ e, validate_data data = Except.error e) ↔
        ∃ z ∈ read_zones data,
          (z.kind = "MASTER" ∧ z.nameservers.length < 1) ∨
            (z.kind = "SLAVE" ∧ z.masters.length < 1))
    ∧ validate_data { zones := some [] } = Except.ok ()
    ∧ validate_data { zones := none } = Except.ok ()
    ∧ ∀ e, validate_data data = Except.error e →
        (main_run env proto host port op data).2.1 = [] := by
  refine ⟨?_, rfl, rfl, ?_⟩
  · unfold validate_data
    exact validate_zones_error_iff (read_zones data)
  · intro e he
    rw [main_run_config_error env proto host port op data e he]

/-- Witness for C3: a config whose only zone is a MASTER with no nameserver is
rejected and its run issues no HTTP request. -/
theorem validation_rules_and_fail_fast_witness :
    (main_run envAllOk "http" "pdns.local" "8081" Operation.create cfgBad).2.1 = [] :=
  (validation_rules_and_fail_fast cfgBad envAllOk "http" "pdns.local" "8081"
      Operation.create).2.2.2
    "A nameserver is required to create a MASTER zone" rfl

/-- C4: when the existence probe of base/zoneName reports the zone present,
create_zone issues only that GET (no POST) and returns True, and the
single-zone create run goes on to issue one upsert per record; when the
probe reports it absent, create_zone issues exactly the GET followed by one
POST, and the creation counts as success exactly when the POST's response
status is 201. -/
theorem create_zone_probe_short_circuit
    (env : Env) (proto host port : String) (zone : Zone) :
    ((zone_exists env (base_zones_url proto host port ++ "/" ++ zone.name)).1 = true →
      (create_zone env (base_zones_url proto host port) zone).1 = some true
      ∧ (create_zone env (base_zones_url proto host port) zone).2.1
          = [probe_request (base_zones_url proto host port ++ "/" ++ zone.name)]
      ∧ (create env proto host port { zones := some [zone] }).2.1
          = probe_request (base_zones_url proto host port ++ "/" ++ zone.name)
            :: zone.records.map (upsert_request (base_zones_url proto host port) zone.name))
    ∧ ((zone_exists env (base_zones_url proto host port ++ "/" ++ zone.name)).1 = false →
      (create_zone env (base_zones_url proto host port) zone).2.1
        = [probe_request (base_zones_url proto host port ++ "/" ++ zone.name),
            create_request (base_zones_url proto host port) zone]
      ∧ ((create_zone env (base_zones_url proto host port) zone).1 = some true ↔
          env (create_request (base_zones_url proto host port) zone) = some 201)) := by
  constructor
  · intro h
    have hcz := create_zone_probe_hit env (base_zones_url proto host port) zone h
    have hprobe := zone_exists_reqs env (base_zones_url proto host port ++ "/" ++ zone.name)
    refine ⟨by rw [hcz], by rw [hcz]; exact hprobe, ?_⟩
    show (create_loop env proto host port (read_zones { zones := some [zone] }) 0).2.1 = _
    have hz : read_zones { zones := some [zone] } = [zone] := rfl
    rw [hz, create_loop_cons_ok env proto host port zone [] 0 (by rw [hcz]),
      create_records_reqs, hcz, hprobe]
    simp [create_loop]
  · intro h
    exact create_zone_probe_miss env (base_zones_url proto host port) zone h

/-- Witness for C4 at an environment where every probe hits: the zone is
treated as already created, only the GET is issued, and the record upsert
follows. -/
theorem create_zone_probe_short_circuit_witness :
    (create_zone envExists (base_zones_url "http" "pdns.local" "8081") zoneA).1 = some true
    ∧ (create_zone envExists (base_zones_url "http" "pdns.local" "8081") zoneA).2.1
        = [probe_request (base_zones_url "http" "pdns.local" "8081" ++ "/" ++ zoneA.name)]
    ∧ (create envExists "http" "pdns.local" "8081" { zones := some [zoneA] }).2.1
        = probe_request (base_zones_url "http" "pdns.local" "8081" ++ "/" ++ zoneA.name)
          :: zoneA.records.map
            (upsert_request (base_zones_url "http" "pdns.local" "8081") zoneA.name) :=
  (create_zone_probe_short_circuit envExists "http" "pdns.local" "8081" zoneA).1 (by decide)

/-- C5 counterexample: the probe answers true on a 301 response, which is not
a successful 2xx status.  raise_for_status raises only for statuses in
[400, 600), so any 1xx or 3xx final status also yields true, refuting
"returns true only on a successful (2xx) response". -/
theorem zone_exists_true_on_redirect :
    (zone_exists env301 "http://pdns.local:8081/api/v1/servers/localhost/zones/a.example.").1
        = true
    ∧ env301 (probe_request
          "http://pdns.local:8081/api/v1/servers/localhost/zones/a.example.") = some 301
    ∧ ¬(200 ≤ 301 ∧ 301 < 300) := by
  refine ⟨by decide, rfl, by decide⟩

/-- C5 (amended): every call of the prober issues exactly one GET request (no
retries), swallows every error, and returns true exactly when the request
completed with a status outside the raise_for_status error range [400, 600):
in particular true on every 2xx, false on every 4xx or 5xx status and on any
raised exception (network failure, timeout), but also true on 1xx and 3xx
statuses. -/
theorem zone_exists_single_get_swallows_errors (env : Env) (url : String) :
    (zone_exists env url).2.1 = [probe_request url]
    ∧ ((zone_exists env url).1 = true ↔
        ∃ s, env (probe_request url) = some s ∧ ¬(400 ≤ s ∧ s < 600)) :=
  ⟨zone_exists_reqs env url, zone_exists_true_iff env url⟩

/-- C6: the zone-creation payload always carries both a masters and a
nameservers field (the Body.zoneCreate constructor has both, so neither can
be omitted); for kinds MASTER and NATIVE masters is the empty list and
nameservers is the zone's list, for every other kind nameservers is the
empty list and masters is the zone's list; and when a POST is issued it
carries exactly this payload. -/
theorem create_zone_payload_kinds (zone : Zone) (env : Env) (url : String) :
    ((zone.kind = "MASTER" ∨ zone.kind = "NATIVE") →
        create_zone_payload zone
          = Body.zoneCreate zone.name zone.kind [] zone.nameservers)
    ∧ (¬(zone.kind = "MASTER" ∨ zone.kind = "NATIVE") →
        create_zone_payload zone
          = Body.zoneCreate zone.name zone.kind zone.masters [])
    ∧ ((zone_exists env (url ++ "/" ++ zone.name)).1 = false →
        create_request url zone ∈ (create_zone env url zone).2.1
        ∧ (create_request url zone).body = some (create_zone_payload zone)) := by
  refine ⟨?_, ?_, ?_⟩
  · intro h
    unfold create_zone_payload
    rw [if_pos h]
  · intro h
    unfold create_zone_payload
    rw [if_neg h]
  · intro h
    refine ⟨?_, rfl⟩
    rw [(create_zone_probe_miss env url zone h).1]
    simp

/-- Witness for C6 at a MASTER zone: the payload sends masters empty and
carries the zone's nameservers. -/
theorem create_zone_payload_kinds_witness :
    create_zone_payload zoneB
      = Body.zoneCreate zoneB.name zoneB.kind [] zoneB.nameservers :=
  (create_zone_payload_kinds zoneB envAllOk
      (base_zones_url "http" "pdns.local" "8081")).1 (by decide)

/-- C7: the create path issues exactly one PATCH per record of the zone, in
input order, each to base/zoneName with a payload holding a single rrset
with the record's name, type and ttl, changetype REPLACE, and a records
array with exactly one entry per content value, in input order, each paired
with the record's disabled flag. -/
theorem record_upsert_payload_shape (env : Env) (url : String) (zone : Zone) :
    (create_records env url zone).1 = zone.records.map (upsert_request url zone.name)
    ∧ ∀ record : RecordSpec,
        record_payload record
          = Body.rrsetReplace record.name record.type record.ttl
              (record.content.map (fun c => { content := c, disabled := record.disabled }))
        ∧ (build_records record.content record.disabled).length
            = record.content.length := by
  refine ⟨create_records_reqs env url zone, fun record => ⟨?_, ?_⟩⟩
  · unfold record_payload
    rw [build_records_eq_map]
  · rw [build_records_eq_map]
    simp

/-- C8 counterexample: zone creation succeeds, every record upsert is refused
with a 500, and the run still returns ok and reports overall success: the
record-level failure is logged but recorded in no failure count of the run,
so it is not counted as a failure anywhere. -/
theorem record_failure_logged_not_counted :
    (create envRecordFail "http" "pdns.local" "8081" cfgA).1 = CreateResult.ok
    ∧ LogEvent.errorMsg "Error" ∈ (create envRecordFail "http" "pdns.local" "8081" cfgA).2.2
    ∧ (main_run envRecordFail "http" "pdns.local" "8081" Operation.create cfgA).1
        = RunResult.opSuccess := by
  refine ⟨by decide, by decide, by decide⟩

/-- C8 (amended): in the create path a non-success response to a record
upsert is logged as an error-level record failure; it does not abort the
remaining records of the zone (the full per-record PATCH list is issued
whatever the environment answers), it does not abort subsequent zones, and
it is counted into no failure tally: the loop result and the zone failure
count are the same as if the zone's records were untouched. -/
theorem record_failure_isolation
    (env : Env) (proto host port : String) (zone : Zone) (zs : List Zone)
    (record : RecordSpec) (hr : record ∈ zone.records)
    (hz : (create_zone env (base_zones_url proto host port) zone).1 = some true)
    (hfail : is_http_error
        (env (upsert_request (base_zones_url proto host port) zone.name record)) = true) :
    LogEvent.errorMsg "Error"
        ∈ (create_records env (base_zones_url proto host port) zone).2
    ∧ (create_records env (base_zones_url proto host port) zone).1
        = zone.records.map (upsert_request (base_zones_url proto host port) zone.name)
    ∧ (create_loop env proto host port (zone :: zs) 0).1
        = (create_loop env proto host port zs 0).1
    ∧ (create_loop env proto host port (zone :: zs) 0).2.1
        = (create_zone env (base_zones_url proto host port) zone).2.1
          ++ (create_records env (base_zones_url proto host port) zone).1
          ++ (create_loop env proto host port zs 0).2.1
    ∧ countZoneFailures env (base_zones_url proto host port) (zone :: zs)
        = countZoneFailures env (base_zones_url proto host port) zs := by
  refine ⟨?_, create_records_reqs env (base_zones_url proto host port) zone, ?_, ?_, ?_⟩
  · exact create_records_loop_err_log env (base_zones_url proto host port) zone.name
      zone.records record hr hfail
  · rw [create_loop_cons_ok env proto host port zone zs 0 hz]
  · rw [create_loop_cons_ok env proto host port zone zs 0 hz]
  · rw [countZoneFailures_cons,
      if_neg (by simp [hz] :
        ¬ (create_zone env (base_zones_url proto host port) zone).1 = some false),
      Nat.add_zero]

/-- Witness for C8: the failing upsert of recA is logged while the one-zone
run's result is the same as that of the empty run. -/
theorem record_failure_isolation_witness :
    LogEvent.errorMsg "Error"
        ∈ (create_records envRecordFail (base_zones_url "http" "pdns.local" "8081") zoneA).2
    ∧ (create_records envRecordFail (base_zones_url "http" "pdns.local" "8081") zoneA).1
        = zoneA.records.map
            (upsert_request (base_zones_url "http" "pdns.local" "8081") zoneA.name)
    ∧ (create_loop envRecordFail "http" "pdns.local" "8081" [zoneA] 0).1
        = (create_loop envRecordFail "http" "pdns.local" "8081" [] 0).1
    ∧ (create_loop envRecordFail "http" "pdns.local" "8081" [zoneA] 0).2.1
        = (create_zone envRecordFail (base_zones_url "http" "pdns.local" "8081") zoneA).2.1
          ++ (create_records envRecordFail (base_zones_url "http" "pdns.local" "8081") zoneA).1
          ++ (create_loop envRecordFail "http" "pdns.local" "8081" [] 0).2.1
    ∧ countZoneFailures envRecordFail (base_zones_url "http" "pdns.local" "8081") [zoneA]
        = countZoneFailures envRecordFail (base_zones_url "http" "pdns.local" "8081") [] :=
  record_failure_isolation envRecordFail "http" "pdns.local" "8081" zoneA [] recA
    (by decide) (by decide) (by decide)

/-- C9: the delete path never aggregates per-item failures: for every
environment (however many record or zone deletions fail or raise) a
validated delete run reports overall success. -/
theorem delete_reports_success (env : Env) (proto host port : String) (data : Config)
    (hv : validate_data data = Except.ok ()) :
    (main_run env proto host port Operation.delete data).1 = RunResult.opSuccess :=
  main_run_delete_result env proto host port data hv

/-- Witness for C9 at an environment where every probe hits and every
deletion call is refused with a 500: the run still reports success. -/
theorem delete_reports_success_witness :
    (main_run envDeleteFail "http" "pdns.local" "8081" Operation.delete cfgAB).1
      = RunResult.opSuccess :=
  delete_reports_success envDeleteFail "http" "pdns.local" "8081" cfgAB rfl

/-- C10: a zone whose kind is neither MASTER nor SLAVE (NATIVE or any other
string) contributes nothing to validation: validating a list headed by such
a zone equals validating the tail, whatever the zone's nameservers and
masters lists hold. -/
theorem validate_skips_other_kinds (zone : Zone) (zs : List Zone)
    (h1 : zone.kind ≠ "MASTER") (h2 : zone.kind ≠ "SLAVE") :
    validate_zones (zone :: zs) = validate_zones zs := by
  conv_lhs => unfold validate_zones
  rw [if_neg (fun hc => h1 hc.1), if_neg (fun hc => h2 hc.1)]

/-- Witness for C10 at a NATIVE zone with empty nameservers and masters. -/
theorem validate_skips_other_kinds_witness :
    validate_zones [zoneA] = validate_zones [] :=
  validate_skips_other_kinds zoneA [] (by decide) (by decide)

end PdnsDataManager
